import Mathlib

/-!
Verification of the cascade_submit repository: a shallow embedding of the two
EMOD3D resource estimators (estimate_emod3d.py and
estimate_emod3d_max10nodes.py) and of the submission planner
(submit_emod3d_for_fault.py), together with theorems settling the frozen
claims about the natural-language specification.

Modelling conventions: Python floats are embedded as exact rationals (ℚ),
Python `int()` truncation is `pyInt`, `math.ceil` is `pyCeil`, a file that may
be absent or unreadable is an `Option`, and the estimators' fallible parsing
is `Except String`. Local variables of the Python code become named
definitions so that theorems can speak about them directly.
-/

namespace CascadeSubmit

/-- Python `int()` on a float: truncation toward zero. -/
def pyInt (q : ℚ) : ℤ := if 0 ≤ q then ⌊q⌋ else ⌈q⌉

/-- Python `math.ceil`. -/
def pyCeil (q : ℚ) : ℤ := ⌈q⌉

/-- Check that `pat` is a leading segment of `l` (character-wise). -/
def listStartsWith : List Char → List Char → Bool
  | [], _ => true
  | _ :: _, [] => false
  | a :: as, b :: bs => a == b && listStartsWith as bs

/-- Check that `pat` occurs as a contiguous segment of the second list. -/
def listContainsSub (pat : List Char) : List Char → Bool
  | [] => pat.isEmpty
  | b :: bs => listStartsWith pat (b :: bs) || listContainsSub pat bs

/-- Python's `marker in line` substring test on strings. -/
def strContains (line marker : String) : Bool :=
  listContainsSub marker.toList line.toList

/-! ## ResourceModel (shared by both estimator scripts)

Transcribed from `estimate_emod3d_max10nodes.py` lines 119-128 and the
identical formulas in `estimate_emod3d.py` lines 106-112. -/

/-- surface_term = max(nx*ny, ny*nz, nx*nz). -/
def surface_term (nx ny nz : ℤ) : ℤ := max (nx * ny) (max (ny * nz) (nx * nz))

/-- M_bytes = 4 * (31*nx*ny*nz + 56*surface_term + 6*(nx+nz)). -/
def M_bytes (nx ny nz : ℤ) : ℤ :=
  4 * (31 * nx * ny * nz + 56 * surface_term nx ny nz + 6 * (nx + nz))

/-- M_gb_needed = M_bytes / 1024**3. -/
def M_gb (nx ny nz : ℤ) : ℚ := (M_bytes nx ny nz : ℚ) / 2 ^ 30

/-- Tuned performance slope for Cascade: 1.9e-9 seconds per byte-step. -/
def slope : ℚ := 19 / 10 ^ 10

/-- Computational volume `V = M_bytes * nt`. -/
def V_of (nx ny nz nt : ℤ) : ℚ := (M_bytes nx ny nz : ℚ) * (nt : ℚ)

/-! ## Input files and dt / nt resolution

Both estimators read `vm_params.yaml` (the simulation profile) and optionally
`Runs/root_params.yaml` (the run-defaults file), then resolve `dt` and `nt`
with identical code (`estimate_emod3d.py` lines 85-104,
`estimate_emod3d_max10nodes.py` lines 97-117). -/

/-- Relevant content of the run-defaults file `root_params.yaml`; the `dt`
key is optional. -/
structure RootData where
  dt : Option ℚ
deriving DecidableEq

/-- Relevant content of the simulation profile `vm_params.yaml`; every key
may be absent. -/
structure VmData where
  nx : Option ℤ
  ny : Option ℤ
  nz : Option ℤ
  nt : Option ℤ
  sim_duration : Option ℚ
  dt : Option ℚ
deriving DecidableEq

/-- dt resolution, transcribed from the source: `dt = 0.005`; if the root
file exists, take its `dt` when present (the profile's `dt` is never
consulted in that case); only when the root file is absent does the
profile's `dt` override the default. 0.005 = 1/200. -/
def resolve_dt (vm_dt : Option ℚ) (root : Option RootData) : ℚ :=
  match root with
  | some rd =>
    match rd.dt with
    | some d => d
    | none => 1 / 200
  | none =>
    match vm_dt with
    | some d => d
    | none => 1 / 200

/-- nt resolution: prefer an explicit `nt`; otherwise derive
`nt = int(sim_duration / dt)`; otherwise fail. -/
def resolve_nt (nt sim_duration : Option ℚ) (dt : ℚ) : Except String ℤ :=
  match nt with
  | some n => Except.ok (pyInt n)
  | none =>
    match sim_duration with
    | some sd => Except.ok (pyInt (sd / dt))
    | none => Except.error (r"Missing nt or sim_duration")

namespace Est10

/-! ## The 10-node (throughput-optimized) estimator

Transcribed from `estimate_emod3d_max10nodes.py`. -/

def PHYSICAL_CORES_PER_NODE : ℤ := 192

def RAM_PER_NODE_GB : ℚ := 755

def REQUEST_RAM_GB : ℚ := 735

def BASH_SCRIPT_OVERHEAD : ℚ := 85 / 100

def MAX_NODES_CAP : ℤ := 10

def HIGH_DENSITY_THRESHOLD_GB : ℚ := RAM_PER_NODE_GB * (85 / 100)

def MIN_GB_PER_CORE_IF_FULL : ℚ := 2

def DEFAULT_MAX_WALLTIME_HOURS : ℚ := 24

/-- Density-throttle intermediate (line 155): `int(mem_per_node / 2.0)`. -/
def max_safe_tasks (mem_per_node : ℚ) : ℤ :=
  pyInt (mem_per_node / MIN_GB_PER_CORE_IF_FULL)

/-- Density check (lines 152-157): tasks per node at a given per-node memory
load; when the node is very full, throttle to the safe task count, floored
at 1. -/
def tasks_of (mem_per_node : ℚ) : ℤ :=
  if HIGH_DENSITY_THRESHOLD_GB < mem_per_node then
    if min PHYSICAL_CORES_PER_NODE (max_safe_tasks mem_per_node) < 1 then 1
    else min PHYSICAL_CORES_PER_NODE (max_safe_tasks mem_per_node)
  else PHYSICAL_CORES_PER_NODE

/-- Predicted runtime at node count `n` (lines 150-160):
`pred_sec = slope * V / total_cores`. -/
def pred_sec_at (Mgb V : ℚ) (n : ℤ) : ℚ :=
  slope * V / ((n * tasks_of (Mgb / (n : ℚ)) : ℤ) : ℚ)

/-- Memory-minimum node count before clamping (line 134). -/
def min_nodes_raw (Mgb : ℚ) : ℤ :=
  pyCeil (Mgb / (REQUEST_RAM_GB * BASH_SCRIPT_OVERHEAD))

/-- The cap applied at lines 136-140 (warn loudly and clamp to the cap). -/
def min_nodes_capped (Mgb : ℚ) : ℤ :=
  if MAX_NODES_CAP < min_nodes_raw Mgb then MAX_NODES_CAP else min_nodes_raw Mgb

/-- Final memory-minimum node count (line 142): at least 1. -/
def min_nodes_mem10 (Mgb : ℚ) : ℤ :=
  if min_nodes_capped Mgb < 1 then 1 else min_nodes_capped Mgb

/-- The throughput solver loop (lines 147-181): starting at the memory
minimum, pick the first node count whose predicted runtime fits in
`max_sec`; if none fits by the cap, settle at the cap. `fuel` is the number
of remaining increments up to the cap. -/
def solve_loop (Mgb V max_sec : ℚ) : ℤ → ℕ → ℤ
  | n, 0 => n
  | n, fuel + 1 =>
    if pred_sec_at Mgb V n ≤ max_sec then n else solve_loop Mgb V max_sec (n + 1) fuel

/-- The node count the solver settles on. -/
def nodes10 (nx ny nz nt : ℤ) (max_walltime_hours : ℚ) : ℤ :=
  solve_loop (M_gb nx ny nz) (V_of nx ny nz nt) (max_walltime_hours * 3600)
    (min_nodes_mem10 (M_gb nx ny nz))
    (MAX_NODES_CAP - min_nodes_mem10 (M_gb nx ny nz)).toNat

/-- Result record of the 10-node estimator (lines 193-200). `mem_gb` is the
per-node memory request. -/
structure Plan10 where
  nodes : ℤ
  tasks_per_node : ℤ
  mem_gb : ℤ
  pred_sec : ℚ
  req_walltime_sec : ℤ
deriving DecidableEq

/-- Core of `estimate_resources` in `estimate_emod3d_max10nodes.py`
(lines 119-200), after the profile has been parsed into `nx ny nz nt`. -/
def estimate10core (nx ny nz nt : ℤ) (max_walltime_hours : ℚ) : Plan10 :=
  { nodes := nodes10 nx ny nz nt max_walltime_hours
    tasks_per_node :=
      tasks_of (M_gb nx ny nz / ((nodes10 nx ny nz nt max_walltime_hours : ℤ) : ℚ))
    mem_gb := pyInt REQUEST_RAM_GB
    pred_sec :=
      pred_sec_at (M_gb nx ny nz) (V_of nx ny nz nt) (nodes10 nx ny nz nt max_walltime_hours)
    req_walltime_sec :=
      pyInt (pred_sec_at (M_gb nx ny nz) (V_of nx ny nz nt)
        (nodes10 nx ny nz nt max_walltime_hours) * (6 / 5) + 600) }

/-- Full `estimate_resources` of the 10-node script: resolve dt and nt from
the two input files, then run the core solver. -/
def estimate_resources (vm : VmData) (root : Option RootData)
    (max_walltime_hours : ℚ) : Except String Plan10 :=
  match vm.nx, vm.ny, vm.nz with
  | some nx, some ny, some nz =>
    match resolve_nt (vm.nt.map (fun z => (z : ℚ))) vm.sim_duration
        (resolve_dt vm.dt root) with
    | Except.ok nt => Except.ok (estimate10core nx ny nz nt max_walltime_hours)
    | Except.error e => Except.error e
  | _, _, _ => Except.error (r"Missing param")

end Est10

namespace EstQT

/-! ## The queue-tier-optimized estimator

Transcribed from `estimate_emod3d.py`. -/

def PHYSICAL_CORES_PER_NODE : ℤ := 192

def MAX_NODES_CAP : ℤ := 9

def OVERHEAD_PER_TASK_GB : ℚ := 3 / 2

def SAFE_STANDARD_MEM_GB : ℚ := 350

def SAFE_HIGH_MEM_GB : ℚ := 730

def DEFAULT_MAX_WALLTIME_HOURS : ℚ := 24

/-- Total memory for a config (line 122): grid plus per-rank MPI overhead. -/
def total_mem_gb_of (grid_gb : ℚ) (n : ℤ) : ℚ :=
  grid_gb + ((n * PHYSICAL_CORES_PER_NODE : ℤ) : ℚ) * OVERHEAD_PER_TASK_GB

/-- Per-node memory for a config (line 123). -/
def mem_per_node_of (grid_gb : ℚ) (n : ℤ) : ℚ :=
  total_mem_gb_of grid_gb n / (n : ℚ)

/-- Predicted runtime for a config (lines 126-127). -/
def pred_of (V : ℚ) (n : ℤ) : ℚ :=
  slope * V / ((n * PHYSICAL_CORES_PER_NODE : ℤ) : ℚ)

/-- Queue tier of a candidate configuration. -/
inductive QueueTier where
  | standard
  | high_mem
deriving DecidableEq

/-- One candidate configuration of the queue-tier solver (lines 143-150). -/
structure CandidateQT where
  nodes : ℤ
  tasks : ℤ
  time : ℚ
  mem_per_node : ℚ
  queue : QueueTier
  score : ℤ
deriving DecidableEq

/-- One iteration of the candidate loop (lines 118-150): candidates violating
the walltime bound below the cap, or whose per-node memory reaches the
high-mem ceiling, are discarded; standard-tier candidates score by node
count, high-mem ones carry a 100-point penalty. -/
def mk_candidate (grid_gb V max_sec : ℚ) (n : ℤ) : Option CandidateQT :=
  if max_sec < pred_of V n ∧ n < MAX_NODES_CAP then none
  else if mem_per_node_of grid_gb n < SAFE_STANDARD_MEM_GB then
    some { nodes := n, tasks := PHYSICAL_CORES_PER_NODE, time := pred_of V n,
           mem_per_node := mem_per_node_of grid_gb n,
           queue := QueueTier.standard, score := n }
  else if mem_per_node_of grid_gb n < SAFE_HIGH_MEM_GB then
    some { nodes := n, tasks := PHYSICAL_CORES_PER_NODE, time := pred_of V n,
           mem_per_node := mem_per_node_of grid_gb n,
           queue := QueueTier.high_mem, score := 100 + n }
  else none

/-- The candidate list over node counts 1..9 (`range(1, MAX_NODES_CAP + 1)`). -/
def candidatesQT (grid_gb V max_sec : ℚ) : List CandidateQT :=
  ((List.range' 1 9).map (fun k : ℕ => (k : ℤ))).filterMap (mk_candidate grid_gb V max_sec)

/-- Python's stable `sort(key=score)` followed by `[0]`: the first candidate
with minimal score. -/
def select_best : List CandidateQT → Option CandidateQT
  | [] => none
  | c :: cs => some (cs.foldl (fun acc x => if x.score < acc.score then x else acc) c)

/-- The 10% memory buffer of line 160. -/
def buffered_mem (c : CandidateQT) : ℚ := c.mem_per_node * (11 / 10)

/-- Final per-node memory request (lines 158-170): buffered memory clamped
into the chosen queue tier's band. -/
def req_mem_per_node_of (c : CandidateQT) : ℚ :=
  match c.queue with
  | QueueTier.standard => min (max (buffered_mem c) 100) 450
  | QueueTier.high_mem => min (buffered_mem c) SAFE_HIGH_MEM_GB

/-- Result record of the queue-tier estimator (lines 180-189). `mem_gb` is
the total request over all nodes. -/
structure PlanQT where
  nodes : ℤ
  tasks_per_node : ℤ
  mem_gb : ℤ
  pred_sec : ℚ
  req_walltime_sec : ℤ
  queue : QueueTier
deriving DecidableEq

/-- Assembly of the final plan from the winning candidate (lines 158-189). -/
def planQT_of (best : CandidateQT) : PlanQT :=
  { nodes := best.nodes
    tasks_per_node := best.tasks
    mem_gb := pyInt (req_mem_per_node_of best * (best.nodes : ℚ))
    pred_sec := best.time
    req_walltime_sec := pyInt (best.time * (6 / 5) + 900)
    queue := best.queue }

/-- Core of `estimate_resources` in `estimate_emod3d.py` (lines 106-189),
after the profile has been parsed into `nx ny nz nt`. -/
def estimateQTcore (nx ny nz nt : ℤ) (max_walltime_hours : ℚ) :
    Except String PlanQT :=
  match select_best (candidatesQT (M_gb nx ny nz) (V_of nx ny nz nt)
      (max_walltime_hours * 3600)) with
  | none => Except.error (r"No valid configuration found")
  | some best => Except.ok (planQT_of best)

/-- Full `estimate_resources` of the queue-tier script. -/
def estimate_resources (vm : VmData) (root : Option RootData)
    (max_walltime_hours : ℚ) : Except String PlanQT :=
  match vm.nx, vm.ny, vm.nz with
  | some nx, some ny, some nz =>
    match resolve_nt (vm.nt.map (fun z => (z : ℚ))) vm.sim_duration
        (resolve_dt vm.dt root) with
    | Except.ok nt => estimateQTcore nx ny nz nt max_walltime_hours
    | Except.error e => Except.error e
  | _, _, _ => Except.error (r"Missing param")

end EstQT

namespace Submit

/-! ## The submission planner

Transcribed from `submit_emod3d_for_fault.py`. -/

/-- Lifecycle state of one run directory. -/
inductive RunState where
  | NEW
  | IN_PROGRESS
  | COMPLETED
deriving DecidableEq

/-- One `*.rlog` file: its modification time and its content as a list of
lines; `content = none` models a failing read (the `except Exception: pass`
path of `get_run_status`). -/
structure LogFile where
  mtime : ℤ
  content : Option (List String)
deriving DecidableEq

/-- One candidate run directory: whether the path is a directory at all,
whether `LF/Rlog` exists, and the `*.rlog` files it holds. -/
structure RunDir where
  isDir : Bool
  rlogDirExists : Bool
  rlogs : List LogFile
deriving DecidableEq

/-- Terminal success marker searched for in the log tail. -/
def runMarker : String := r"PROGRAM emod3d-mpi IS FINISHED"

/-- Python `max(rlogs, key=os.path.getmtime)`: the first file of maximal
modification time. -/
def latest_rlog : List LogFile → Option LogFile
  | [] => none
  | f :: fs => some (fs.foldl (fun acc x => if acc.mtime < x.mtime then x else acc) f)

/-- Python `lines[-50:]`. -/
def last50 (lines : List String) : List String := lines.drop (lines.length - 50)

/-- Scan of the last 50 lines for the terminal success marker
(lines 141-147). -/
def finished_marker_in (lines : List String) : Bool :=
  (last50 lines).any (fun line => strContains line runMarker)

/-- Whether the tail scan of one log file succeeds and finds the marker
(lines 139-147); a failing read yields `false`. -/
def log_is_finished (lf : LogFile) : Bool :=
  match lf.content with
  | none => false
  | some lines => finished_marker_in lines

/-- `get_run_status` (lines 132-149). -/
def get_run_status (rd : RunDir) : RunState :=
  if rd.rlogDirExists = false then RunState.NEW
  else
    match latest_rlog rd.rlogs with
    | none => RunState.NEW
    | some latest =>
      if log_is_finished latest then RunState.COMPLETED else RunState.IN_PROGRESS

/-- The ALL-mode target filter of `main` (lines 389-403): skip paths that are
not directories, always drop COMPLETED runs, keep IN_PROGRESS runs only under
`--force`, keep the rest (NEW). The resulting list is both the manifest
written to the map file and the set of submitted targets. -/
def select_targets (force : Bool) (dirs : List RunDir) : List RunDir :=
  dirs.filterMap fun d =>
    if d.isDir = false then none
    else
      match get_run_status d with
      | RunState.COMPLETED => none
      | RunState.IN_PROGRESS => if force then some d else none
      | RunState.NEW => some d

/-- Seconds represented by a parsed `H:M:S`-style walltime (lines 79-87):
three parts are `h, m, s`; two parts are `h, m`; otherwise the first part is
taken as hours. -/
def total_seconds_of : List ℤ → ℤ
  | [h, m, s] => h * 3600 + m * 60 + s
  | [h, m] => h * 3600 + m * 60
  | h :: _ => h * 3600
  | [] => 0

/-- `get_queue_name` (lines 72-98) on an already-split walltime. -/
def get_queue_name (total_mem_gb : ℤ) (walltime_parts : List ℤ) : String :=
  if 735000 < total_mem_gb * 1024 then
    if 48 * 3600 < total_seconds_of walltime_parts then r"high_mem_longq"
    else r"high_mem_shortq"
  else
    if 48 * 3600 < total_seconds_of walltime_parts then r"longq" else r"shortq"

/-- Per-node memory request in MB before the 1 GB floor (line 203). -/
def mem_per_node_mb_raw (mem_gb nodes : ℤ) : ℤ :=
  pyInt (((mem_gb * 1024 : ℤ) : ℚ) / (nodes : ℚ))

/-- Per-node memory request in MB (lines 203-206). -/
def mem_per_node_mb_of (mem_gb nodes : ℤ) : ℤ :=
  if mem_per_node_mb_raw mem_gb nodes < 1024 then 1024
  else mem_per_node_mb_raw mem_gb nodes

/-- MAXMEM passed to the application (lines 212-217):
`int((mem_mb_total / total_tasks) * 0.85)` with `mem_mb_total` in
megabytes. -/
def maxmem_core (mem_gb nodes tasks_per_node : ℤ) : ℤ :=
  pyInt (((mem_gb * 1024 : ℤ) : ℚ) / ((nodes * tasks_per_node : ℤ) : ℚ) * (85 / 100))

/-- Queue chosen by `submit_array_job` (lines 219-226). -/
def queue_of (mem_gb nodes : ℤ) (walltime_parts : List ℤ) : String :=
  if get_queue_name mem_gb walltime_parts = r"longq" then r"longq"
  else if 500000 < mem_per_node_mb_of mem_gb nodes then r"high_mem_shortq"
  else r"shortq"

def EMOD3D_BIN : String := r"/uoc/project/uoc40001/EMOD3D/tools/emod3d-mpi_v3.0.8"

/-- Environment entries common to both submission shapes (lines 230-236),
modelled as key-value pairs (the code joins them as KEY=VALUE strings). -/
def env_base (map_file defaults_file : String) (mem_gb nodes tasks_per_node : ℤ) :
    List (String × String) :=
  [(r"MAXMEM", toString (maxmem_core mem_gb nodes tasks_per_node)),
   (r"EMOD3D_BIN", EMOD3D_BIN),
   (r"EMOD3D_DEFAULTS", defaults_file),
   (r"ENABLE_RESTART", r"no"),
   (r"ARRAY_MAP_FILE", map_file)]

/-- The scheduler dispatch request assembled by `submit_array_job`: the `-J`
array directive is an optional index range. -/
structure SubmitRequest where
  queue : String
  nodes : ℤ
  tasks_per_node : ℤ
  mem_per_node_mb : ℤ
  array_range : Option (ℤ × ℤ)
  env : List (String × String)
deriving DecidableEq

/-- `submit_array_job` (lines 182-271) reduced to the data of the dispatch
request: `count` is the number of manifest targets. A single target becomes
a non-array job with an injected `PBS_ARRAY_INDEX=1`; more targets become a
true `1-N` array. -/
def submit_array_job (map_file defaults_file : String)
    (mem_gb nodes tasks_per_node : ℤ) (walltime_parts : List ℤ)
    (count : ℤ) : SubmitRequest :=
  if count = 1 then
    { queue := queue_of mem_gb nodes walltime_parts, nodes := nodes,
      tasks_per_node := tasks_per_node,
      mem_per_node_mb := mem_per_node_mb_of mem_gb nodes, array_range := none,
      env := env_base map_file defaults_file mem_gb nodes tasks_per_node ++
        [(r"PBS_ARRAY_INDEX", r"1")] }
  else
    { queue := queue_of mem_gb nodes walltime_parts, nodes := nodes,
      tasks_per_node := tasks_per_node,
      mem_per_node_mb := mem_per_node_mb_of mem_gb nodes,
      array_range := some (1, count),
      env := env_base map_file defaults_file mem_gb nodes tasks_per_node }

end Submit

end CascadeSubmit

namespace CascadeSubmit

/-! ## Helper lemmas -/

theorem pyInt_of_nonneg {q : ℚ} (h : 0 ≤ q) : pyInt q = ⌊q⌋ := if_pos h

theorem tasks_of_eq (m : ℚ) : Est10.tasks_of m = 192 := by
  unfold Est10.tasks_of
  split
  case isTrue h =>
    have hgt : (0 : ℚ) < m := by
      refine lt_trans ?_ h
      norm_num [Est10.HIGH_DENSITY_THRESHOLD_GB, Est10.RAM_PER_NODE_GB]
    have hm : (0 : ℚ) ≤ m / Est10.MIN_GB_PER_CORE_IF_FULL := by
      have h2 : (0 : ℚ) < Est10.MIN_GB_PER_CORE_IF_FULL := by
        norm_num [Est10.MIN_GB_PER_CORE_IF_FULL]
      positivity
    have h320 : (320 : ℤ) ≤ Est10.max_safe_tasks m := by
      unfold Est10.max_safe_tasks
      rw [pyInt_of_nonneg hm, Int.le_floor]
      have h3 : Est10.HIGH_DENSITY_THRESHOLD_GB = (2567 : ℚ) / 4 := by
        norm_num [Est10.HIGH_DENSITY_THRESHOLD_GB, Est10.RAM_PER_NODE_GB]
      rw [h3] at h
      rw [show Est10.MIN_GB_PER_CORE_IF_FULL = (2 : ℚ) from rfl]
      push_cast
      linarith
    have hmin : min Est10.PHYSICAL_CORES_PER_NODE (Est10.max_safe_tasks m) = 192 := by
      rw [min_eq_left]
      · rfl
      · calc Est10.PHYSICAL_CORES_PER_NODE = 192 := rfl
          _ ≤ 320 := by norm_num
          _ ≤ _ := h320
    rw [hmin, if_neg (by norm_num)]
  case isFalse h => rfl

theorem solve_loop_ge (Mgb V ms : ℚ) :
    ∀ (fuel : ℕ) (n : ℤ), n ≤ Est10.solve_loop Mgb V ms n fuel := by
  intro fuel
  induction fuel with
  | zero => intro n; exact le_refl _
  | succ k ih =>
    intro n
    unfold Est10.solve_loop
    split
    · exact le_refl n
    · exact le_trans (by omega) (ih (n + 1))

theorem min_nodes_mem10_ge_min (Mgb : ℚ) :
    min (Est10.min_nodes_raw Mgb) Est10.MAX_NODES_CAP ≤ Est10.min_nodes_mem10 Mgb := by
  unfold Est10.min_nodes_mem10 Est10.min_nodes_capped
  rcases le_or_lt (Est10.min_nodes_raw Mgb) Est10.MAX_NODES_CAP with hle | hgt
  · rw [if_neg (not_lt.mpr hle)]
    split
    · exact le_trans (min_le_left _ _) (by omega)
    · exact min_le_left _ _
  · rw [if_pos hgt]
    split
    · exact le_trans (min_le_right _ _) (by omega)
    · exact min_le_right _ _

theorem min_nodes_mem10_pos (Mgb : ℚ) : 1 ≤ Est10.min_nodes_mem10 Mgb := by
  unfold Est10.min_nodes_mem10
  split
  · exact le_refl 1
  · omega

theorem min_nodes_mem10_eq_of_le {Mgb : ℚ} (hpos : 0 < Mgb)
    (hle : Est10.min_nodes_raw Mgb ≤ Est10.MAX_NODES_CAP) :
    Est10.min_nodes_mem10 Mgb = Est10.min_nodes_raw Mgb := by
  have hraw : 1 ≤ Est10.min_nodes_raw Mgb := by
    unfold Est10.min_nodes_raw pyCeil
    have hq : 0 < Mgb / (Est10.REQUEST_RAM_GB * Est10.BASH_SCRIPT_OVERHEAD) := by
      apply div_pos hpos
      norm_num [Est10.REQUEST_RAM_GB, Est10.BASH_SCRIPT_OVERHEAD]
    exact Int.ceil_pos.mpr hq
  unfold Est10.min_nodes_mem10 Est10.min_nodes_capped
  rw [if_neg (not_lt.mpr hle), if_neg (by omega)]

theorem nodes10_ge (nx ny nz nt : ℤ) (maxh : ℚ) :
    Est10.min_nodes_mem10 (M_gb nx ny nz) ≤ Est10.nodes10 nx ny nz nt maxh :=
  solve_loop_ge _ _ _ _ _

theorem nodes10_pos (nx ny nz nt : ℤ) (maxh : ℚ) :
    1 ≤ Est10.nodes10 nx ny nz nt maxh :=
  le_trans (min_nodes_mem10_pos _) (nodes10_ge nx ny nz nt maxh)

theorem M_bytes_pos {nx ny nz : ℤ} (hx : 0 < nx) (hy : 0 < ny) (hz : 0 < nz) :
    0 < M_bytes nx ny nz := by
  unfold M_bytes surface_term
  have h1 : 0 < nx * ny * nz := by positivity
  have h2 : 0 < nx * ny := by positivity
  have h3 : nx * ny ≤ max (nx * ny) (max (ny * nz) (nx * nz)) := le_max_left _ _
  nlinarith

theorem M_gb_pos {nx ny nz : ℤ} (hx : 0 < nx) (hy : 0 < ny) (hz : 0 < nz) :
    0 < M_gb nx ny nz := by
  unfold M_gb
  have h := M_bytes_pos hx hy hz
  have : (0 : ℚ) < (M_bytes nx ny nz : ℚ) := by exact_mod_cast h
  positivity

theorem V_of_nonneg {nx ny nz nt : ℤ} (hx : 0 < nx) (hy : 0 < ny) (hz : 0 < nz)
    (hnt : 0 ≤ nt) : 0 ≤ V_of nx ny nz nt := by
  unfold V_of
  have h := M_bytes_pos hx hy hz
  have h1 : (0 : ℚ) ≤ (M_bytes nx ny nz : ℚ) := by exact_mod_cast le_of_lt h
  have h2 : (0 : ℚ) ≤ (nt : ℚ) := by exact_mod_cast hnt
  positivity

theorem pred_sec_at_nonneg {Mgb V : ℚ} (hV : 0 ≤ V) {n : ℤ} (hn : 1 ≤ n) :
    0 ≤ Est10.pred_sec_at Mgb V n := by
  unfold Est10.pred_sec_at
  rw [tasks_of_eq]
  have hc : (0 : ℚ) ≤ ((n * 192 : ℤ) : ℚ) := by
    have : (0 : ℤ) ≤ n * 192 := by omega
    exact_mod_cast this
  have hs : (0 : ℚ) ≤ slope := by norm_num [slope]
  positivity

theorem pyInt_pad_ge (p pad : ℚ) (hp : 0 ≤ p) (hpad : 1 ≤ pad) :
    (6 / 5) * p ≤ ((pyInt (p * (6 / 5) + pad) : ℤ) : ℚ) := by
  have h0 : (0 : ℚ) ≤ p * (6 / 5) + pad := by linarith
  rw [pyInt_of_nonneg h0]
  have h1 := Int.lt_floor_add_one (p * (6 / 5) + pad)
  have h2 := Int.floor_le (p * (6 / 5) + pad)
  set f : ℤ := ⌊p * (6 / 5) + pad⌋
  have h3 : p * (6 / 5) + pad - 1 < (f : ℚ) := by linarith
  linarith

/-! ## Claim theorems -/

/-- C3 counterexample: with `dt = 0.02` in the simulation profile and
`dt = 0.01` in the run-defaults file, the code resolves `dt = 0.01` — the
run-defaults file wins, contradicting the claimed precedence of the profile
file. -/
theorem c3_counterexample :
    resolve_dt (some (1 / 50)) (some { dt := some (1 / 100) }) ≠ 1 / 50 ∧
    resolve_dt (some (1 / 50)) (some { dt := some (1 / 100) }) = 1 / 100 := by
  constructor
  · show (1 / 100 : ℚ) ≠ 1 / 50
    norm_num
  · rfl

/-- C3 amended: dt resolution gives the run-defaults file the higher
precedence: when that file is present its `dt` (or, failing that, the fixed
default 0.005) is used and the profile's `dt` is ignored; the profile's `dt`
is consulted only when the run-defaults file is absent, with 0.005 as the
final fallback. -/
theorem c3_dt_precedence (vm_dt : Option ℚ) (rd : RootData) :
    resolve_dt vm_dt (some rd) = rd.dt.getD (1 / 200) ∧
    resolve_dt vm_dt none = vm_dt.getD (1 / 200) := by
  constructor
  · cases h : rd.dt with
    | none => simp [resolve_dt, h]
    | some d => simp [resolve_dt, h]
  · cases vm_dt with
    | none => rfl
    | some d => rfl

/-- C4: for positive grid dimensions, the memory footprint is exactly
`4 * (31*nx*ny*nz + 56*max(nx*ny, ny*nz, nx*nz) + 6*(nx+nz))` bytes and
`memory_gb` is that count divided by 2^30. -/
theorem c4_memory_model (nx ny nz : ℤ) (hx : 0 < nx) (hy : 0 < ny) (hz : 0 < nz) :
    M_bytes nx ny nz =
      4 * (31 * (nx * ny * nz) + 56 * max (max (nx * ny) (ny * nz)) (nx * nz) +
        6 * (nx + nz)) ∧
    M_gb nx ny nz = (M_bytes nx ny nz : ℚ) / 2 ^ 30 := by
  refine ⟨?_, rfl⟩
  unfold M_bytes surface_term
  rw [max_assoc]
  ring

/-- C4 witness at the concrete grid 2 x 3 x 5. -/
theorem c4_witness :
    M_bytes 2 3 5 =
      4 * (31 * (2 * 3 * 5) + 56 * max (max (2 * 3) (3 * 5)) (2 * 5) + 6 * (2 + 5)) ∧
    M_gb 2 3 5 = (M_bytes 2 3 5 : ℚ) / 2 ^ 30 :=
  c4_memory_model 2 3 5 (by norm_num) (by norm_num) (by norm_num)

/-- C10: in the 10-node estimator the density throttle can never bite: the
tasks-per-node function is constantly 192, because above the high-density
threshold (641.75 GB) the safe task bound `int(mem_per_node / 2.0)` is at
least 320, which exceeds the 192 physical cores; hence every returned plan
has `tasks_per_node = 192`. -/
theorem c10_tasks_always_full :
    (∀ m : ℚ, Est10.tasks_of m = 192) ∧
    (∀ m : ℚ, Est10.HIGH_DENSITY_THRESHOLD_GB < m → 320 ≤ Est10.max_safe_tasks m) ∧
    (∀ nx ny nz nt : ℤ, ∀ maxh : ℚ,
      (Est10.estimate10core nx ny nz nt maxh).tasks_per_node = 192) := by
  refine ⟨tasks_of_eq, ?_, ?_⟩
  · intro m h
    have hgt : (0 : ℚ) < m := by
      refine lt_trans ?_ h
      norm_num [Est10.HIGH_DENSITY_THRESHOLD_GB, Est10.RAM_PER_NODE_GB]
    have hm : (0 : ℚ) ≤ m / Est10.MIN_GB_PER_CORE_IF_FULL := by
      have h2 : (0 : ℚ) < Est10.MIN_GB_PER_CORE_IF_FULL := by
        norm_num [Est10.MIN_GB_PER_CORE_IF_FULL]
      positivity
    unfold Est10.max_safe_tasks
    rw [pyInt_of_nonneg hm, Int.le_floor]
    have h3 : Est10.HIGH_DENSITY_THRESHOLD_GB = (2567 : ℚ) / 4 := by
      norm_num [Est10.HIGH_DENSITY_THRESHOLD_GB, Est10.RAM_PER_NODE_GB]
    rw [h3] at h
    rw [show Est10.MIN_GB_PER_CORE_IF_FULL = (2 : ℚ) from rfl]
    push_cast
    linarith
  · intro nx ny nz nt maxh
    show Est10.tasks_of _ = 192
    exact tasks_of_eq _

/-- C10 witness: the throttle-branch bound at 700 GB and the full plan at a
concrete small profile. -/
theorem c10_witness :
    Est10.tasks_of 700 = 192 ∧
    320 ≤ Est10.max_safe_tasks 700 ∧
    (Est10.estimate10core 1 1 1 0 24).tasks_per_node = 192 :=
  ⟨c10_tasks_always_full.1 700,
   c10_tasks_always_full.2.1 700
     (by norm_num [Est10.HIGH_DENSITY_THRESHOLD_GB, Est10.RAM_PER_NODE_GB]),
   c10_tasks_always_full.2.2 1 1 1 0 24⟩

end CascadeSubmit

namespace CascadeSubmit

/-- C2 counterexample: for the 4096 x 4096 x 4096 profile the independently
computed memory minimum `ceil(memory_gb / (735 * 0.85))` is 13 nodes, yet the
solver returns only 10 (the clamp at the 10-node cap), so the claimed
unconditional bound `nodes >= min_nodes_mem` fails. -/
theorem c2_counterexample :
    (Est10.estimate10core 4096 4096 4096 1000 24).nodes <
      Est10.min_nodes_raw (M_gb 4096 4096 4096) := by
  have hraw : Est10.min_nodes_raw (M_gb 4096 4096 4096) = 13 := by
    unfold Est10.min_nodes_raw pyCeil M_gb M_bytes surface_term
      Est10.REQUEST_RAM_GB Est10.BASH_SCRIPT_OVERHEAD
    rw [Int.ceil_eq_iff] <;> norm_num
  have hmem : Est10.min_nodes_mem10 (M_gb 4096 4096 4096) = 10 := by
    unfold Est10.min_nodes_mem10 Est10.min_nodes_capped
    rw [hraw]
    norm_num [Est10.MAX_NODES_CAP]
  have hnodes : (Est10.estimate10core 4096 4096 4096 1000 24).nodes = 10 := by
    show Est10.nodes10 4096 4096 4096 1000 24 = 10
    unfold Est10.nodes10
    rw [hmem]
    norm_num [Est10.MAX_NODES_CAP, Est10.solve_loop]
  rw [hraw, hnodes]
  norm_num

/-- C2 amended: the returned node count is always at least
`min(min_nodes_mem, MAX_NODES_CAP)`: the memory minimum holds whenever it is
within the 10-node cap, and otherwise the solver starts (and therefore ends)
at the cap. -/
theorem c2_nodes_ge_min_capped (nx ny nz nt : ℤ) (maxh : ℚ) :
    min (Est10.min_nodes_raw (M_gb nx ny nz)) Est10.MAX_NODES_CAP ≤
      (Est10.estimate10core nx ny nz nt maxh).nodes := by
  show min _ _ ≤ Est10.nodes10 nx ny nz nt maxh
  exact le_trans (min_nodes_mem10_ge_min _) (nodes10_ge _ _ _ _ _)

/-! ## Queue-tier solver helper lemmas -/

theorem foldl_pick_mem (cs : List EstQT.CandidateQT) :
    ∀ a : EstQT.CandidateQT,
      cs.foldl (fun acc x => if x.score < acc.score then x else acc) a ∈ a :: cs := by
  induction cs with
  | nil => intro a; simp
  | cons c cs ih =>
    intro a
    simp only [List.foldl_cons]
    rcases List.mem_cons.mp (ih (if c.score < a.score then c else a)) with h | h
    · rw [h]
      split
      · exact List.mem_cons_of_mem _ (List.mem_cons_self _ _)
      · exact List.mem_cons_self _ _
    · exact List.mem_cons_of_mem _ (List.mem_cons_of_mem _ h)

theorem select_best_mem {l : List EstQT.CandidateQT} {c : EstQT.CandidateQT}
    (h : EstQT.select_best l = some c) : c ∈ l := by
  cases l with
  | nil => simp [EstQT.select_best] at h
  | cons a as =>
    simp only [EstQT.select_best, Option.some.injEq] at h
    rw [← h]
    exact foldl_pick_mem as a

theorem candidatesQT_mem {g V ms : ℚ} {c : EstQT.CandidateQT}
    (h : c ∈ EstQT.candidatesQT g V ms) :
    ∃ n : ℤ, 1 ≤ n ∧ n ≤ 9 ∧ EstQT.mk_candidate g V ms n = some c := by
  unfold EstQT.candidatesQT at h
  rcases List.mem_filterMap.mp h with ⟨n, hn, hmk⟩
  rw [show (List.range' 1 9).map (fun k : ℕ => (k : ℤ)) = [1, 2, 3, 4, 5, 6, 7, 8, 9] from by
    decide] at hn
  refine ⟨n, ?_, ?_, hmk⟩ <;> (fin_cases hn <;> norm_num)

theorem mk_candidate_spec {g V ms : ℚ} {n : ℤ} {c : EstQT.CandidateQT}
    (h : EstQT.mk_candidate g V ms n = some c) :
    c.nodes = n ∧ c.tasks = 192 ∧ c.time = EstQT.pred_of V n ∧
    c.mem_per_node = EstQT.mem_per_node_of g n ∧
    (c.queue = EstQT.QueueTier.standard → c.mem_per_node < 350) ∧
    (c.queue = EstQT.QueueTier.high_mem → c.mem_per_node < 730) := by
  unfold EstQT.mk_candidate at h
  split at h
  · exact absurd h (by simp)
  · split at h
    case isTrue hstd =>
      simp only [Option.some.injEq] at h
      subst h
      refine ⟨rfl, rfl, rfl, rfl, ?_, ?_⟩
      · intro _; exact hstd
      · intro hq; exact EstQT.QueueTier.noConfusion hq
    case isFalse hstd =>
      split at h
      case isTrue hhigh =>
        simp only [Option.some.injEq] at h
        subst h
        refine ⟨rfl, rfl, rfl, rfl, ?_, ?_⟩
        · intro hq; exact EstQT.QueueTier.noConfusion hq
        · intro _; exact hhigh
      case isFalse hhigh => exact absurd h (by simp)

theorem mem_per_node_nonneg {g : ℚ} (hg : 0 ≤ g) {n : ℤ} (hn : 1 ≤ n) :
    0 ≤ EstQT.mem_per_node_of g n := by
  unfold EstQT.mem_per_node_of EstQT.total_mem_gb_of
  simp only [EstQT.PHYSICAL_CORES_PER_NODE, EstQT.OVERHEAD_PER_TASK_GB]
  have h1 : (0 : ℚ) < (n : ℚ) := by exact_mod_cast hn
  have h2 : (0 : ℚ) ≤ ((n * 192 : ℤ) : ℚ) := by
    have : (0 : ℤ) ≤ n * 192 := by omega
    exact_mod_cast this
  positivity

theorem req_mem_ge {c : EstQT.CandidateQT} (hm : 0 ≤ c.mem_per_node)
    (hstd : c.queue = EstQT.QueueTier.standard → c.mem_per_node < 350)
    (hhigh : c.queue = EstQT.QueueTier.high_mem → c.mem_per_node < 730) :
    c.mem_per_node ≤ EstQT.req_mem_per_node_of c := by
  unfold EstQT.req_mem_per_node_of EstQT.buffered_mem
  cases hq : c.queue with
  | standard =>
    have h1 := hstd hq
    apply le_min
    · exact le_trans (by linarith) (le_max_left _ _)
    · linarith
  | high_mem =>
    have h1 := hhigh hq
    apply le_min
    · linarith
    · simp only [EstQT.SAFE_HIGH_MEM_GB]
      linarith

end CascadeSubmit

namespace CascadeSubmit

theorem estimateQT_ok_elim {nx ny nz nt : ℤ} {maxh : ℚ} {q : EstQT.PlanQT}
    (hq : EstQT.estimateQTcore nx ny nz nt maxh = Except.ok q) :
    ∃ best ∈ EstQT.candidatesQT (M_gb nx ny nz) (V_of nx ny nz nt) (maxh * 3600),
      EstQT.planQT_of best = q := by
  unfold EstQT.estimateQTcore at hq
  cases hsel : EstQT.select_best
      (EstQT.candidatesQT (M_gb nx ny nz) (V_of nx ny nz nt) (maxh * 3600)) with
  | none => rw [hsel] at hq; simp at hq
  | some best =>
    rw [hsel] at hq
    simp only [Except.ok.injEq] at hq
    exact ⟨best, select_best_mem hsel, hq⟩

theorem pred_of_nonneg {V : ℚ} (hV : 0 ≤ V) {n : ℤ} (hn : 1 ≤ n) :
    0 ≤ EstQT.pred_of V n := by
  unfold EstQT.pred_of
  simp only [EstQT.PHYSICAL_CORES_PER_NODE]
  have hc : (0 : ℚ) ≤ ((n * 192 : ℤ) : ℚ) := by
    exact_mod_cast (by omega : (0 : ℤ) ≤ n * 192)
  have hs : (0 : ℚ) ≤ slope := by norm_num [slope]
  positivity

theorem qt_plan_mem_ge {nx ny nz nt : ℤ} {maxh : ℚ} {q : EstQT.PlanQT}
    (hx : 0 < nx) (hy : 0 < ny) (hz : 0 < nz)
    (hq : EstQT.estimateQTcore nx ny nz nt maxh = Except.ok q) :
    M_gb nx ny nz ≤ (q.mem_gb : ℚ) := by
  obtain ⟨best, hbm, hq2⟩ := estimateQT_ok_elim hq
  obtain ⟨n, hn1, hn9, hmk⟩ := candidatesQT_mem hbm
  obtain ⟨hnodes, htasks, htime, hmem, hstd, hhigh⟩ := mk_candidate_spec hmk
  have hg : 0 ≤ M_gb nx ny nz := (M_gb_pos hx hy hz).le
  have hm0 : 0 ≤ best.mem_per_node := by
    rw [hmem]; exact mem_per_node_nonneg hg hn1
  have hreq : best.mem_per_node ≤ EstQT.req_mem_per_node_of best := req_mem_ge hm0 hstd hhigh
  have hn0 : (0 : ℚ) < (n : ℚ) := by exact_mod_cast lt_of_lt_of_le zero_lt_one hn1
  have hn1q : (1 : ℚ) ≤ (n : ℚ) := by exact_mod_cast hn1
  have htot : best.mem_per_node * (n : ℚ) = M_gb nx ny nz + 288 * (n : ℚ) := by
    rw [hmem]
    unfold EstQT.mem_per_node_of EstQT.total_mem_gb_of
    simp only [EstQT.PHYSICAL_CORES_PER_NODE, EstQT.OVERHEAD_PER_TASK_GB]
    rw [div_mul_cancel₀ _ (ne_of_gt hn0)]
    push_cast
    ring
  have hprod : M_gb nx ny nz + 288 * (n : ℚ) ≤ EstQT.req_mem_per_node_of best * (n : ℚ) := by
    rw [← htot]
    exact mul_le_mul_of_nonneg_right hreq (le_of_lt hn0)
  have harg : 0 ≤ EstQT.req_mem_per_node_of best * ((best.nodes : ℤ) : ℚ) := by
    rw [hnodes]
    nlinarith
  rw [← hq2]
  show M_gb nx ny nz ≤
    ((pyInt (EstQT.req_mem_per_node_of best * ((best.nodes : ℤ) : ℚ))) : ℚ)
  rw [pyInt_of_nonneg harg]
  have hfl := Int.lt_floor_add_one (EstQT.req_mem_per_node_of best * ((best.nodes : ℤ) : ℚ))
  rw [hnodes] at hfl ⊢
  have h1 : EstQT.req_mem_per_node_of best * (n : ℚ) - 1 <
      (⌊EstQT.req_mem_per_node_of best * (n : ℚ)⌋ : ℚ) := by
    linarith
  linarith

/-- C1 counterexample: at the 4000 x 4000 x 4000 profile the footprint is
about 7394 GB; the 10-node estimator clamps at the cap (warning "Job may
OOM") and returns 10 nodes at 735 GB each, so `mem_gb * nodes = 7350 GB`
under-provisions the needed memory. -/
theorem c1_counterexample :
    ((Est10.estimate10core 4000 4000 4000 1000 24).mem_gb : ℚ) *
      ((Est10.estimate10core 4000 4000 4000 1000 24).nodes : ℚ) <
      M_gb 4000 4000 4000 := by
  have hmemgb : (Est10.estimate10core 4000 4000 4000 1000 24).mem_gb = 735 := by
    show pyInt Est10.REQUEST_RAM_GB = 735
    norm_num [pyInt, Est10.REQUEST_RAM_GB]
  have hraw : Est10.min_nodes_raw (M_gb 4000 4000 4000) = 12 := by
    unfold Est10.min_nodes_raw pyCeil M_gb M_bytes surface_term
      Est10.REQUEST_RAM_GB Est10.BASH_SCRIPT_OVERHEAD
    rw [Int.ceil_eq_iff] <;> norm_num
  have hmem : Est10.min_nodes_mem10 (M_gb 4000 4000 4000) = 10 := by
    unfold Est10.min_nodes_mem10 Est10.min_nodes_capped
    rw [hraw]
    norm_num [Est10.MAX_NODES_CAP]
  have hnodes : (Est10.estimate10core 4000 4000 4000 1000 24).nodes = 10 := by
    show Est10.nodes10 4000 4000 4000 1000 24 = 10
    unfold Est10.nodes10
    rw [hmem]
    norm_num [Est10.MAX_NODES_CAP, Est10.solve_loop]
  rw [hmemgb, hnodes]
  norm_num [M_gb, M_bytes, surface_term]

/-- C1 amended: capacity is never under-provisioned except through the
10-node estimator's explicit cap clamp. Whenever the memory-minimum node
count is within the 10-node cap, the 10-node plan satisfies
`mem_gb * nodes >= memory_gb`; and the queue-tier plan always satisfies
`total requested mem_gb >= grid_gb`. -/
theorem c1_capacity (nx ny nz nt : ℤ) (maxh : ℚ)
    (hx : 0 < nx) (hy : 0 < ny) (hz : 0 < nz)
    (hcap : Est10.min_nodes_raw (M_gb nx ny nz) ≤ Est10.MAX_NODES_CAP) :
    M_gb nx ny nz ≤ ((Est10.estimate10core nx ny nz nt maxh).mem_gb : ℚ) *
      ((Est10.estimate10core nx ny nz nt maxh).nodes : ℚ) ∧
    (∀ q : EstQT.PlanQT, EstQT.estimateQTcore nx ny nz nt maxh = Except.ok q →
      M_gb nx ny nz ≤ (q.mem_gb : ℚ)) := by
  constructor
  · have hMpos := M_gb_pos hx hy hz
    have h1 : Est10.min_nodes_mem10 (M_gb nx ny nz) = Est10.min_nodes_raw (M_gb nx ny nz) :=
      min_nodes_mem10_eq_of_le hMpos hcap
    have h2 : Est10.min_nodes_raw (M_gb nx ny nz) ≤ Est10.nodes10 nx ny nz nt maxh := by
      rw [← h1]
      exact nodes10_ge _ _ _ _ _
    have h3 : M_gb nx ny nz / ((2499 : ℚ) / 4) ≤
        ((Est10.min_nodes_raw (M_gb nx ny nz) : ℤ) : ℚ) := by
      have hc : Est10.REQUEST_RAM_GB * Est10.BASH_SCRIPT_OVERHEAD = (2499 : ℚ) / 4 := by
        norm_num [Est10.REQUEST_RAM_GB, Est10.BASH_SCRIPT_OVERHEAD]
      unfold Est10.min_nodes_raw pyCeil
      rw [← hc]
      exact Int.le_ceil _
    have h3' : M_gb nx ny nz ≤
        ((Est10.min_nodes_raw (M_gb nx ny nz) : ℤ) : ℚ) * ((2499 : ℚ) / 4) := by
      rw [div_le_iff (by norm_num : (0 : ℚ) < (2499 : ℚ) / 4)] at h3
      exact h3
    have h4 : ((Est10.min_nodes_raw (M_gb nx ny nz) : ℤ) : ℚ) ≤
        ((Est10.nodes10 nx ny nz nt maxh : ℤ) : ℚ) := by exact_mod_cast h2
    have h5 : (0 : ℚ) ≤ ((Est10.nodes10 nx ny nz nt maxh : ℤ) : ℚ) := by
      have h6 := nodes10_pos nx ny nz nt maxh
      exact_mod_cast (by omega : (0 : ℤ) ≤ Est10.nodes10 nx ny nz nt maxh)
    have hmemgb : (Est10.estimate10core nx ny nz nt maxh).mem_gb = 735 := by
      show pyInt Est10.REQUEST_RAM_GB = 735
      norm_num [pyInt, Est10.REQUEST_RAM_GB]
    rw [hmemgb]
    show M_gb nx ny nz ≤ ((735 : ℤ) : ℚ) * ((Est10.nodes10 nx ny nz nt maxh : ℤ) : ℚ)
    push_cast
    nlinarith
  · intro q hq
    exact qt_plan_mem_ge hx hy hz hq

/-- Concrete evaluation of the queue-tier estimator at the unit profile with
`nt = 0`: one node of the standard tier, 316 GB total request, 900 s padded
walltime. -/
theorem qt_eval_unit :
    EstQT.estimateQTcore 1 1 1 0 24 = Except.ok
      { nodes := 1, tasks_per_node := 192, mem_gb := 316, pred_sec := 0,
        req_walltime_sec := 900, queue := EstQT.QueueTier.standard } := by
  have hrange : ((List.range' 1 9).map (fun k : ℕ => (k : ℤ))) =
      [1, 2, 3, 4, 5, 6, 7, 8, 9] := by decide
  norm_num [EstQT.estimateQTcore, EstQT.candidatesQT, EstQT.mk_candidate, EstQT.select_best,
    EstQT.planQT_of, EstQT.req_mem_per_node_of, EstQT.buffered_mem, EstQT.mem_per_node_of,
    EstQT.total_mem_gb_of, EstQT.pred_of, EstQT.PHYSICAL_CORES_PER_NODE, EstQT.MAX_NODES_CAP,
    EstQT.SAFE_STANDARD_MEM_GB, EstQT.SAFE_HIGH_MEM_GB, EstQT.OVERHEAD_PER_TASK_GB,
    M_gb, M_bytes, surface_term, slope, V_of, pyInt, hrange, List.filterMap,
    max_def, min_def]

/-- C1 witness at the unit profile (cap not exceeded; queue-tier returns a
plan totalling 316 GB). -/
theorem c1_witness :
    M_gb 1 1 1 ≤ ((Est10.estimate10core 1 1 1 0 24).mem_gb : ℚ) *
      ((Est10.estimate10core 1 1 1 0 24).nodes : ℚ) ∧
    M_gb 1 1 1 ≤ ((({ nodes := 1, tasks_per_node := 192, mem_gb := 316, pred_sec := 0, req_walltime_sec := 900, queue := EstQT.QueueTier.standard } : EstQT.PlanQT).mem_gb : ℤ) : ℚ) :=
  have h := c1_capacity 1 1 1 0 24
    (by norm_num) (by norm_num) (by norm_num)
    (by
      unfold Est10.min_nodes_raw pyCeil M_gb M_bytes surface_term
        Est10.REQUEST_RAM_GB Est10.BASH_SCRIPT_OVERHEAD Est10.MAX_NODES_CAP
      rw [Int.ceil_le]
      norm_num)
  ⟨h.1, h.2 { nodes := 1, tasks_per_node := 192, mem_gb := 316, pred_sec := 0, req_walltime_sec := 900, queue := EstQT.QueueTier.standard } qt_eval_unit⟩

end CascadeSubmit

namespace CascadeSubmit

/-- C5: both estimators request walltime `int(predicted * 1.2 + pad)` with a
fixed pad of 600 s (10-node variant) and 900 s (queue-tier variant) — both
within the 300-900 s band — and the requested walltime always covers the 20%
margin: `requested_walltime_seconds >= 1.2 * predicted_seconds` despite the
integer truncation. -/
theorem c5_walltime_margin (nx ny nz nt : ℤ) (maxh : ℚ)
    (hx : 0 < nx) (hy : 0 < ny) (hz : 0 < nz) (hnt : 0 ≤ nt) :
    ((Est10.estimate10core nx ny nz nt maxh).req_walltime_sec =
      pyInt ((Est10.estimate10core nx ny nz nt maxh).pred_sec * (6 / 5) + 600)) ∧
    (6 / 5) * (Est10.estimate10core nx ny nz nt maxh).pred_sec ≤
      ((Est10.estimate10core nx ny nz nt maxh).req_walltime_sec : ℚ) ∧
    (∀ q : EstQT.PlanQT, EstQT.estimateQTcore nx ny nz nt maxh = Except.ok q →
      q.req_walltime_sec = pyInt (q.pred_sec * (6 / 5) + 900) ∧
      (6 / 5) * q.pred_sec ≤ (q.req_walltime_sec : ℚ)) := by
  have hV := V_of_nonneg hx hy hz hnt
  have hp10 : 0 ≤ (Est10.estimate10core nx ny nz nt maxh).pred_sec :=
    pred_sec_at_nonneg hV (nodes10_pos nx ny nz nt maxh)
  refine ⟨rfl, pyInt_pad_ge _ 600 hp10 (by norm_num), ?_⟩
  intro q hq
  obtain ⟨best, hbm, hq2⟩ := estimateQT_ok_elim hq
  obtain ⟨n, hn1, hn9, hmk⟩ := candidatesQT_mem hbm
  obtain ⟨hnodes, htasks, htime, hmem, hstd, hhigh⟩ := mk_candidate_spec hmk
  have hbt : 0 ≤ best.time := by
    rw [htime]
    exact pred_of_nonneg hV hn1
  refine ⟨?_, ?_⟩
  · rw [← hq2]
    rfl
  · rw [← hq2]
    exact pyInt_pad_ge best.time 900 hbt (by norm_num)

/-- C5 witness at the unit profile with `nt = 0`. -/
theorem c5_witness :
    ((Est10.estimate10core 1 1 1 0 24).req_walltime_sec =
      pyInt ((Est10.estimate10core 1 1 1 0 24).pred_sec * (6 / 5) + 600)) ∧
    (6 / 5) * (Est10.estimate10core 1 1 1 0 24).pred_sec ≤
      ((Est10.estimate10core 1 1 1 0 24).req_walltime_sec : ℚ) ∧
    (({ nodes := 1, tasks_per_node := 192, mem_gb := 316, pred_sec := 0, req_walltime_sec := 900, queue := EstQT.QueueTier.standard } : EstQT.PlanQT).req_walltime_sec = pyInt (({ nodes := 1, tasks_per_node := 192, mem_gb := 316, pred_sec := 0, req_walltime_sec := 900, queue := EstQT.QueueTier.standard } : EstQT.PlanQT).pred_sec * (6 / 5) + 900)) ∧
    (6 / 5) * ({ nodes := 1, tasks_per_node := 192, mem_gb := 316, pred_sec := 0, req_walltime_sec := 900, queue := EstQT.QueueTier.standard } : EstQT.PlanQT).pred_sec ≤ (({ nodes := 1, tasks_per_node := 192, mem_gb := 316, pred_sec := 0, req_walltime_sec := 900, queue := EstQT.QueueTier.standard } : EstQT.PlanQT).req_walltime_sec : ℚ) :=
  have h := c5_walltime_margin 1 1 1 0 24
    (by norm_num) (by norm_num) (by norm_num) (by norm_num)
  ⟨h.1, h.2.1, (h.2.2 { nodes := 1, tasks_per_node := 192, mem_gb := 316, pred_sec := 0, req_walltime_sec := 900, queue := EstQT.QueueTier.standard } qt_eval_unit).1, (h.2.2 { nodes := 1, tasks_per_node := 192, mem_gb := 316, pred_sec := 0, req_walltime_sec := 900, queue := EstQT.QueueTier.standard } qt_eval_unit).2⟩

/-- C6: the run-state classifier returns NEW exactly when the log directory
is absent or holds no rlog files; otherwise, when the newest log is readable,
it returns COMPLETED exactly when one of its last 50 lines contains the
terminal success marker; and when the newest log cannot be read it returns
IN_PROGRESS — the classifier is a total function of the directory model and
never raises. -/
theorem c6_run_status_classification (rd : Submit.RunDir) :
    (Submit.get_run_status rd = Submit.RunState.NEW ↔
      (rd.rlogDirExists = false ∨ rd.rlogs = [])) ∧
    (∀ lf : Submit.LogFile, Submit.latest_rlog rd.rlogs = some lf →
      rd.rlogDirExists = true →
      ∀ lines : List String, lf.content = some lines →
      (Submit.get_run_status rd = Submit.RunState.COMPLETED ↔
        ∃ line ∈ Submit.last50 lines, strContains line Submit.runMarker = true)) ∧
    (∀ lf : Submit.LogFile, Submit.latest_rlog rd.rlogs = some lf →
      rd.rlogDirExists = true → lf.content = none →
      Submit.get_run_status rd = Submit.RunState.IN_PROGRESS) := by
  refine ⟨?_, ?_, ?_⟩
  · cases hdir : rd.rlogDirExists with
    | false => simp [Submit.get_run_status, hdir]
    | true =>
      cases hl : rd.rlogs with
      | nil => simp [Submit.get_run_status, hdir, hl, Submit.latest_rlog]
      | cons f fs =>
        refine iff_of_false ?_ (by simp)
        unfold Submit.get_run_status
        rw [hdir, hl]
        simp only [Submit.latest_rlog]
        rw [if_neg (by simp)]
        split <;> simp
  · intro lf hlf hdir lines hc
    simp only [Submit.get_run_status, hdir, hlf]
    have hiff : Submit.finished_marker_in lines = true ↔
        ∃ line ∈ Submit.last50 lines, strContains line Submit.runMarker = true := by
      unfold Submit.finished_marker_in
      rw [List.any_eq_true]
    rw [← hiff]
    unfold Submit.log_is_finished
    rw [hc]
    by_cases hb : Submit.finished_marker_in lines = true
    · simp [hb]
    · simp [hb]
  · intro lf hlf hdir hc
    simp only [Submit.get_run_status, hdir, hlf]
    unfold Submit.log_is_finished
    rw [hc]
    simp

/-- C6 witness: a directory whose only log ends in the success marker is
COMPLETED; a directory with an empty log directory is NEW. -/
theorem c6_witness :
    Submit.get_run_status
      { isDir := true, rlogDirExists := true, rlogs := [{ mtime := 0, content := some [r"PROGRAM emod3d-mpi IS FINISHED"] }] } =
      Submit.RunState.COMPLETED ∧
    Submit.get_run_status { isDir := true, rlogDirExists := false, rlogs := [] } =
      Submit.RunState.NEW := by
  constructor
  · have h := (c6_run_status_classification
      { isDir := true, rlogDirExists := true, rlogs := [{ mtime := 0, content := some [r"PROGRAM emod3d-mpi IS FINISHED"] }] }).2.1
      { mtime := 0, content := some [r"PROGRAM emod3d-mpi IS FINISHED"] } rfl rfl
      [r"PROGRAM emod3d-mpi IS FINISHED"] rfl
    exact h.mpr ⟨r"PROGRAM emod3d-mpi IS FINISHED", by decide, by decide⟩
  · exact (c6_run_status_classification
      { isDir := true, rlogDirExists := false, rlogs := [] }).1.mpr (Or.inl rfl)

/-- C7: a run directory whose classifier state is COMPLETED never appears in
the submission target list (the manifest written for the array job and the
set of submitted targets), for any force setting. -/
theorem c7_completed_never_submitted (force : Bool) (dirs : List Submit.RunDir)
    (d : Submit.RunDir) (hd : d ∈ Submit.select_targets force dirs) :
    Submit.get_run_status d ≠ Submit.RunState.COMPLETED := by
  unfold Submit.select_targets at hd
  rcases List.mem_filterMap.mp hd with ⟨a, ha, hfa⟩
  split at hfa
  · cases hfa
  · split at hfa
    · cases hfa
    · split at hfa
      · injection hfa with h
        subst h
        intro hc
        simp_all
      · cases hfa
    · injection hfa with h
      subst h
      intro hc
      simp_all

/-- C7 witness: a NEW directory selected from a mixed pool is not
COMPLETED. -/
theorem c7_witness :
    Submit.get_run_status { isDir := true, rlogDirExists := false, rlogs := [] } ≠
      Submit.RunState.COMPLETED :=
  c7_completed_never_submitted false
    [{ isDir := true, rlogDirExists := false, rlogs := [] }]
    { isDir := true, rlogDirExists := false, rlogs := [] }
    (by decide)

/-- C8: one remaining target is submitted as a non-array job with an injected
PBS_ARRAY_INDEX=1 environment entry and no index-range directive; more than
one target yields a true 1-N array request with no such environment
override. -/
theorem c8_array_shape (map_file defaults_file : String)
    (mem_gb nodes tasks_per_node : ℤ) (walltime_parts : List ℤ) (count : ℤ) :
    (count = 1 →
      (Submit.submit_array_job map_file defaults_file mem_gb nodes tasks_per_node
        walltime_parts count).array_range = none ∧
      (r"PBS_ARRAY_INDEX", r"1") ∈
        (Submit.submit_array_job map_file defaults_file mem_gb nodes tasks_per_node
          walltime_parts count).env) ∧
    (1 < count →
      (Submit.submit_array_job map_file defaults_file mem_gb nodes tasks_per_node
        walltime_parts count).array_range = some (1, count) ∧
      (r"PBS_ARRAY_INDEX") ∉
        ((Submit.submit_array_job map_file defaults_file mem_gb nodes tasks_per_node
          walltime_parts count).env.map Prod.fst)) := by
  constructor
  · intro h1
    subst h1
    unfold Submit.submit_array_job
    rw [if_pos rfl]
    exact ⟨rfl, by simp [Submit.env_base]⟩
  · intro h1
    unfold Submit.submit_array_job
    rw [if_neg (by omega)]
    refine ⟨rfl, ?_⟩
    simp [Submit.env_base]

/-- C8 witness at counts 1 and 2. -/
theorem c8_witness :
    (Submit.submit_array_job (r"m") (r"d") 735 1 192 [1, 0, 0] 1).array_range = none ∧
    (r"PBS_ARRAY_INDEX", r"1") ∈
      (Submit.submit_array_job (r"m") (r"d") 735 1 192 [1, 0, 0] 1).env ∧
    (Submit.submit_array_job (r"m") (r"d") 735 2 192 [1, 0, 0] 2).array_range =
      some (1, 2) ∧
    (r"PBS_ARRAY_INDEX") ∉
      ((Submit.submit_array_job (r"m") (r"d") 735 2 192 [1, 0, 0] 2).env.map Prod.fst) := by
  obtain h1 := (c8_array_shape (r"m") (r"d") 735 1 192 [1, 0, 0] 1).1 rfl
  obtain h2 := (c8_array_shape (r"m") (r"d") 735 2 192 [1, 0, 0] 2).2 (by norm_num)
  exact ⟨h1.1, h1.2, h2.1, h2.2⟩

/-- C9 counterexample: at 735 GB total, 1 node and 192 tasks the code passes
MAXMEM = int(735*1024/192 * 0.85) = 3332, a megabyte-based figure, while the
claimed byte-based formula would give int(735*2^30/192 * 0.85) = 3493855232;
the two differ, refuting the claim as stated. -/
theorem c9_counterexample :
    (r"MAXMEM", toString (Submit.maxmem_core 735 1 192)) ∈
      (Submit.submit_array_job (r"m") (r"d") 735 1 192 [1, 0, 0] 1).env ∧
    Submit.maxmem_core 735 1 192 = 3332 ∧
    pyInt (((735 * 2 ^ 30 : ℤ) : ℚ) / ((1 * 192 : ℤ) : ℚ) * (85 / 100)) = 3493855232 ∧
    (3332 : ℤ) ≠ 3493855232 := by
  refine ⟨?_, ?_, ?_, by norm_num⟩
  · unfold Submit.submit_array_job
    rw [if_pos rfl]
    simp [Submit.env_base]
  · norm_num [Submit.maxmem_core, pyInt]
  · norm_num [pyInt]

/-- C9 amended: the MAXMEM environment value equals the total requested
memory in megabytes (mem_gb * 1024) divided by the total reserved core count
(nodes * tasks_per_node), multiplied by 0.85 and truncated to an integer. -/
theorem c9_maxmem (map_file defaults_file : String)
    (mem_gb nodes tasks_per_node : ℤ) (walltime_parts : List ℤ) (count : ℤ) :
    (r"MAXMEM", toString (Submit.maxmem_core mem_gb nodes tasks_per_node)) ∈
      (Submit.submit_array_job map_file defaults_file mem_gb nodes tasks_per_node
        walltime_parts count).env ∧
    Submit.maxmem_core mem_gb nodes tasks_per_node =
      pyInt (((mem_gb * 1024 : ℤ) : ℚ) / ((nodes * tasks_per_node : ℤ) : ℚ) *
        (85 / 100)) := by
  refine ⟨?_, rfl⟩
  unfold Submit.submit_array_job
  split
  · simp [Submit.env_base]
  · simp [Submit.env_base]

end CascadeSubmit
